import Mathlib

/-!
Verification of the command dispatcher in `src/lofreq/lofreq_main.c`.

The C unit is a single `main` that dispatches on `argv[1]` to one of three
subcommands (`call`, `filter`, `version`) or reports an error.  We embed it
shallowly: the argument vector is a `List String`, the external collaborators
(`main_call`, `execvp`'s outcome, the OS error text, and the compile-time
constants `PACKAGE_NAME` / `PACKAGE_VERSION`) are parameters, and the
observable effects (exit status, stdout, stderr, fatal-level log, the calls
handed to the collaborators) are collected in a result structure.
-/

namespace LofreqMain

/-- Modelled from the spec: `BASENAME` (declared in `utils.h`, whose code is
not part of the source slice) returns the basename of a path, i.e. the
component after the last slash of argument 0.  Implemented as a left fold
over the characters: a slash resets the accumulated component. -/
def BASENAME (p : String) : String :=
  (p.toList.foldl (fun acc c => if c = '/' then [] else acc ++ [c]) []).asString

/-- The `usage` function (lines 13-23 of `lofreq_main.c`): the sequence of
strings written to `stderr`, in order.  Line 16 of the C source (the version
line) is commented out there and hence absent here.  `PACKAGE_NAME` is a
compile-time constant defined outside the slice, so it is a parameter. -/
def usage (PACKAGE_NAME myname : String) : List String :=
  [ PACKAGE_NAME ++ ": Fast and sensitive inference of single-nucleotide variants\n",
    "\n",
    "Usage: " ++ myname ++ " <command> [options], where command is one of:\n",
    "  call    : call variants\n",
    "  version : prints version\n",
    "  filter : filter variants\n",
    "\n" ]

/-- The argument vector built in the `filter` branch (lines 35-40):
`calloc(argc-1, sizeof(char*))` yields `argc-1` slots all initialized to the
null pointer (modelled as `none`); then slot 0 is set to `argv[0]` and the
loop `for (i=2; i<argc; i++) argv_execvp[i-1] = argv[i]` fills the rest. -/
def argv_execvp (argv : List String) : List (Option String) :=
  let argc := argv.length
  let slots : List (Option String) := List.replicate (argc - 1) none
  let slots := slots.set 0 (some (argv.getD 0 ""))
  (List.range' 2 (argc - 2)).foldl (fun s i => s.set (i - 1) (some (argv.getD i ""))) slots

/-- Which `return` statement of `main` produced the result (or, for
`filterReplaced`, that `execvp` succeeded and `main` never returns). -/
inductive Branch where
  | usageBranch     -- line 29: `return 1` after printing usage
  | callBranch      -- line 32: `return main_call(argc-1, argv+1)`
  | filterReplaced  -- line 41: execvp succeeded, process image replaced
  | filterFail      -- line 44: `return -1` after perror
  | filterZero      -- line 47: `return 0` (else arm of the execvp test)
  | versionBranch   -- line 52: `return 0` after printing the version
  | unrecognized    -- line 55: `return 1` after LOG_FATAL
  | fallthrough     -- line 57: the trailing `return 0`
deriving DecidableEq

/-- Observable outcome of one invocation of `main`.  `ret = none` means the
process image was replaced by `execvp` and `main` never returned.
`execvpCall` records the executable name and argument vector handed to the
process-replacement primitive; `mainCallArgs` records the `(argc, argv)`
pair handed to the external call-handler `main_call`. -/
structure MainOutcome where
  ret : Option Int
  branch : Branch
  stdout : List String
  stderr : List String
  fatal : List String
  execvpCall : Option (String × List (Option String))
  mainCallArgs : Option (Nat × List String)
deriving DecidableEq

/-- The if/else-if chain of `main` (lines 27-56).  Every arm of the chain
executes a `return`, which we model by producing `some` outcome; `none`
would mean the chain fell through to line 57.

External collaborators are parameters:
* `main_call` is the external call-handler entry point (from
  `lofreq_snpcaller.h`, not in the slice);
* `execvpRet` is the behaviour of `execvp` for this invocation: `none` means
  success (the call never returns), `some e` means it returned `e`;
* `osErr` is the `strerror(errno)` text that `perror` appends to its message.
-/
def mainChain (PACKAGE_NAME PACKAGE_VERSION : String)
    (main_call : Nat → List String → Int)
    (execvpRet : Option Int) (osErr : String)
    (argv : List String) : Option MainOutcome :=
  let argc := argv.length
  if argc < 2 then
    some { ret := some 1, branch := .usageBranch, stdout := [],
           stderr := usage PACKAGE_NAME (BASENAME (argv.getD 0 "")),
           fatal := [], execvpCall := none, mainCallArgs := none }
  else if argv.getD 1 "" = "call" then
    some { ret := some (main_call (argc - 1) (argv.drop 1)), branch := .callBranch,
           stdout := [], stderr := [], fatal := [],
           execvpCall := none, mainCallArgs := some (argc - 1, argv.drop 1) }
  else if argv.getD 1 "" = "filter" then
    let av := argv_execvp argv
    match execvpRet with
    | none =>
      some { ret := none, branch := .filterReplaced, stdout := [], stderr := [],
             fatal := [], execvpCall := some ("lofreq2_filter.py", av),
             mainCallArgs := none }
    | some e =>
      if e ≠ 0 then
        some { ret := some (-1), branch := .filterFail, stdout := [],
               stderr := ["Calling lofreq2_filter.py via execvp failed: " ++ osErr ++ "\n"],
               fatal := [], execvpCall := some ("lofreq2_filter.py", av),
               mainCallArgs := none }
      else
        some { ret := some 0, branch := .filterZero, stdout := [], stderr := [],
               fatal := [], execvpCall := some ("lofreq2_filter.py", av),
               mainCallArgs := none }
  else if argv.getD 1 "" = "version" then
    some { ret := some 0, branch := .versionBranch,
           stdout := [PACKAGE_VERSION ++ "\n"], stderr := [], fatal := [],
           execvpCall := none, mainCallArgs := none }
  else
    some { ret := some 1, branch := .unrecognized, stdout := [], stderr := [],
           fatal := ["Unrecognized command \x27" ++ argv.getD 1 "" ++ "\x27\n"],
           execvpCall := none, mainCallArgs := none }

/-- Function `main` (lines 25-58): run the dispatch chain; if no arm of the
chain returned, fall through to the trailing `return 0` of line 57. -/
def main (PACKAGE_NAME PACKAGE_VERSION : String)
    (main_call : Nat → List String → Int)
    (execvpRet : Option Int) (osErr : String)
    (argv : List String) : MainOutcome :=
  (mainChain PACKAGE_NAME PACKAGE_VERSION main_call execvpRet osErr argv).getD
    { ret := some 0, branch := .fallthrough, stdout := [], stderr := [],
      fatal := [], execvpCall := none, mainCallArgs := none }

/-- Pointwise description of the filling loop of the `filter` branch: folding
the assignments `s[i-1] := argv[i]` for `i ∈ [a, a+k)` over a slot list
changes exactly the in-range positions `a-1 .. a-1+k-1`. -/
theorem foldl_set_getElem? (argv : List String) (k : Nat) :
    ∀ (a : Nat), 1 ≤ a → ∀ (slots : List (Option String)) (j : Nat),
    ((List.range' a k).foldl (fun s i => s.set (i - 1) (some (argv.getD i ""))) slots)[j]? =
      if a - 1 ≤ j ∧ j < a - 1 + k ∧ j < slots.length then some (some (argv.getD (j + 1) ""))
      else slots[j]? := by
  induction k with
  | zero =>
    intro a ha slots j
    rw [if_neg (by omega), List.range'_zero, List.foldl_nil]
  | succ k ih =>
    intro a ha slots j
    rw [List.range'_succ, List.foldl_cons,
      ih (a + 1) (by omega) (slots.set (a - 1) (some (argv.getD a ""))) j,
      List.length_set, List.getElem?_set]
    split_ifs <;>
      first
        | rfl
        | (exfalso; omega)
        | (rw [show j + 1 = a by omega])
        | (exact (List.getElem?_eq_none (by omega)).symm)

/-- Pointwise description of the vector built in the `filter` branch, for any
invocation with at least 2 arguments: position 0 holds `argv[0]`, positions
`1 .. argc-2` hold `argv[2] .. argv[argc-1]`, and there is nothing else. -/
theorem argv_execvp_getElem? (argv : List String) (h2 : 2 ≤ argv.length) (j : Nat) :
    (argv_execvp argv)[j]? =
      if j = 0 then some (some (argv.getD 0 ""))
      else if j < argv.length - 1 then some (some (argv.getD (j + 1) ""))
      else none := by
  simp only [argv_execvp]
  rw [foldl_set_getElem? argv (argv.length - 2) 2 (by omega)]
  simp only [List.length_set, List.length_replicate, List.getElem?_set,
    List.getElem?_replicate]
  split_ifs <;> first | rfl | (exfalso; omega)

/-- The vector built in the `filter` branch, as a list: `argv[0]` followed by
`argv[2..]`, every slot filled (no `none` / null-pointer slot remains). -/
theorem argv_execvp_eq (argv : List String) (h2 : 2 ≤ argv.length) :
    argv_execvp argv = some (argv.getD 0 "") :: (argv.drop 2).map some := by
  apply List.ext_getElem?
  intro j
  rw [argv_execvp_getElem? argv h2 j]
  cases j with
  | zero => rw [if_pos rfl, List.getElem?_cons_zero]
  | succ n =>
    rw [List.getElem?_cons_succ, List.getElem?_map, List.getElem?_drop,
      show 2 + n = n + 1 + 1 by omega, if_neg (by omega : ¬(n + 1 = 0))]
    by_cases hn : n + 1 < argv.length - 1
    · rw [if_pos hn, List.getElem?_eq_getElem (show n + 1 + 1 < argv.length by omega),
        List.getD_eq_getElem argv "" (show n + 1 + 1 < argv.length by omega)]
      rfl
    · rw [if_neg hn, List.getElem?_eq_none (show argv.length ≤ n + 1 + 1 by omega)]
      rfl

section Dispatch

variable (PN PV : String) (mc : Nat → List String → Int) (er : Option Int)
  (oe : String) (argv : List String)

/-- Branch lemma: with fewer than 2 arguments, `main` prints usage to stderr
and returns 1 (lines 27-30). -/
theorem main_usage_eq (h : argv.length < 2) :
    main PN PV mc er oe argv =
      { ret := some 1, branch := .usageBranch, stdout := [],
        stderr := usage PN (BASENAME (argv.getD 0 "")), fatal := [],
        execvpCall := none, mainCallArgs := none } := by
  simp only [main, mainChain]
  rw [if_pos h]
  rfl

/-- Branch lemma: on `call`, `main` returns whatever
`main_call(argc-1, argv+1)` returns (lines 31-32). -/
theorem main_call_eq (h2 : 2 ≤ argv.length) (hc : argv.getD 1 "" = "call") :
    main PN PV mc er oe argv =
      { ret := some (mc (argv.length - 1) (argv.drop 1)), branch := .callBranch,
        stdout := [], stderr := [], fatal := [], execvpCall := none,
        mainCallArgs := some (argv.length - 1, argv.drop 1) } := by
  simp only [main, mainChain]
  rw [if_neg (by omega), if_pos hc]
  rfl

/-- Branch lemma: on `filter` with a succeeding `execvp`, the process image
is replaced and `main` never returns (line 41). -/
theorem main_filter_none_eq (h2 : 2 ≤ argv.length)
    (hf : argv.getD 1 "" = "filter") :
    main PN PV mc none oe argv =
      { ret := none, branch := .filterReplaced, stdout := [], stderr := [],
        fatal := [], execvpCall := some ("lofreq2_filter.py", argv_execvp argv),
        mainCallArgs := none } := by
  simp only [main, mainChain]
  rw [if_neg (by omega), if_neg (by rw [hf]; decide), if_pos hf]
  rfl

/-- Branch lemma: on `filter` with `execvp` returning a value `e`, the
outcome is decided by the C truth test `if (execvp(...))` (lines 41-48). -/
theorem mainChain_filter_some_eq (e : Int) (h2 : 2 ≤ argv.length)
    (hf : argv.getD 1 "" = "filter") :
    mainChain PN PV mc (some e) oe argv =
      if e ≠ 0 then
        some { ret := some (-1), branch := .filterFail, stdout := [],
               stderr := ["Calling lofreq2_filter.py via execvp failed: " ++ oe ++ "\n"],
               fatal := [], execvpCall := some ("lofreq2_filter.py", argv_execvp argv),
               mainCallArgs := none }
      else
        some { ret := some 0, branch := .filterZero, stdout := [], stderr := [],
               fatal := [], execvpCall := some ("lofreq2_filter.py", argv_execvp argv),
               mainCallArgs := none } := by
  simp only [mainChain]
  rw [if_neg (by omega), if_neg (by rw [hf]; decide), if_pos hf]

/-- Branch lemma: on `filter` with `execvp` returning nonzero `e` (the POSIX
failure case), `main` prints the perror message and returns -1 (lines 42-44). -/
theorem main_filter_fail_eq (e : Int) (he : e ≠ 0) (h2 : 2 ≤ argv.length)
    (hf : argv.getD 1 "" = "filter") :
    main PN PV mc (some e) oe argv =
      { ret := some (-1), branch := .filterFail, stdout := [],
        stderr := ["Calling lofreq2_filter.py via execvp failed: " ++ oe ++ "\n"],
        fatal := [], execvpCall := some ("lofreq2_filter.py", argv_execvp argv),
        mainCallArgs := none } := by
  simp only [main]
  rw [mainChain_filter_some_eq PN PV mc oe argv e h2 hf, if_pos he]
  rfl

/-- Branch lemma: on `filter` with `execvp` returning 0 (which the execvp
contract rules out), `main` would take the else arm and return 0 (lines 45-48). -/
theorem main_filter_zero_eq (h2 : 2 ≤ argv.length)
    (hf : argv.getD 1 "" = "filter") :
    main PN PV mc (some 0) oe argv =
      { ret := some 0, branch := .filterZero, stdout := [], stderr := [],
        fatal := [], execvpCall := some ("lofreq2_filter.py", argv_execvp argv),
        mainCallArgs := none } := by
  simp only [main]
  rw [mainChain_filter_some_eq PN PV mc oe argv 0 h2 hf, if_neg (by omega)]
  rfl

/-- Branch lemma: on `version`, `main` prints the version string to stdout
and returns 0 (lines 50-52). -/
theorem main_version_eq (h2 : 2 ≤ argv.length)
    (hv : argv.getD 1 "" = "version") :
    main PN PV mc er oe argv =
      { ret := some 0, branch := .versionBranch, stdout := [PV ++ "\n"],
        stderr := [], fatal := [], execvpCall := none, mainCallArgs := none } := by
  simp only [main, mainChain]
  rw [if_neg (by omega), if_neg (by rw [hv]; decide), if_neg (by rw [hv]; decide),
    if_pos hv]
  rfl

/-- Branch lemma: on an unrecognized token, `main` logs a fatal message and
returns 1 (lines 53-55). -/
theorem main_unrecognized_eq (h2 : 2 ≤ argv.length)
    (hc : argv.getD 1 "" ≠ "call") (hf : argv.getD 1 "" ≠ "filter")
    (hv : argv.getD 1 "" ≠ "version") :
    main PN PV mc er oe argv =
      { ret := some 1, branch := .unrecognized, stdout := [], stderr := [],
        fatal := ["Unrecognized command \x27" ++ argv.getD 1 "" ++ "\x27\n"],
        execvpCall := none, mainCallArgs := none } := by
  simp only [main, mainChain]
  rw [if_neg (by omega), if_neg hc, if_neg hf, if_neg hv]
  rfl

/-- Every arm of the dispatch chain executes a `return`: the chain never
falls through to line 57. -/
theorem mainChain_ne_none : mainChain PN PV mc er oe argv ≠ none := by
  simp only [mainChain]
  split_ifs
  · simp
  · simp
  · cases er with
    | none => simp
    | some e =>
      by_cases he : e ≠ 0
      · simp [he]
      · simp [he]
  · simp
  · simp

/-- C1: for every invocation with at least 3 arguments whose argument 1 is
`"filter"`, the forwarded argument vector built for process replacement has
the original `argv[0]` unchanged at position 0, followed by the original
arguments from index 2 onward in their original relative order, with the
literal token `"filter"` dropped. -/
theorem filter_forwards_original_args (h3 : 3 ≤ argv.length)
    (hf : argv.getD 1 "" = "filter") :
    argv_execvp argv = some (argv.getD 0 "") :: (argv.drop 2).map some ∧
    (main PN PV mc er oe argv).execvpCall =
      some ("lofreq2_filter.py", some (argv.getD 0 "") :: (argv.drop 2).map some) := by
  have hv := argv_execvp_eq argv (by omega)
  refine ⟨hv, ?_⟩
  cases er with
  | none => rw [main_filter_none_eq PN PV mc oe argv (by omega) hf, hv]
  | some e =>
    by_cases he : e = 0
    · subst he
      rw [main_filter_zero_eq PN PV mc oe argv (by omega) hf, hv]
    · rw [main_filter_fail_eq PN PV mc oe argv e he (by omega) hf, hv]

/-- Witness for C1 at `progname filter x y`: the forwarded vector is
`[progname, "x", "y"]`. -/
theorem filter_forwards_original_args_witness :
    argv_execvp ["progname", "filter", "x", "y"] = [some "progname", some "x", some "y"] ∧
    (main "lofreq" "2.1.5" (fun _ _ => 0) (some (-1)) "No such file or directory"
        ["progname", "filter", "x", "y"]).execvpCall =
      some ("lofreq2_filter.py", [some "progname", some "x", some "y"]) := by
  have h := filter_forwards_original_args "lofreq" "2.1.5" (fun _ _ => 0) (some (-1))
    "No such file or directory" ["progname", "filter", "x", "y"] (by decide) (by decide)
  exact ⟨h.1.trans (by decide), h.2.trans (by decide)⟩

/-- C2: on `call`, the dispatcher invokes the external call-handler with
count `argc-1` and the argument vector starting at index 1 (so the
subcommand name `"call"` occupies position 0 of the handler vector), and the
dispatcher returns exactly what the handler returns. -/
theorem call_rebase_and_propagate (h2 : 2 ≤ argv.length)
    (hc : argv.getD 1 "" = "call") :
    (main PN PV mc er oe argv).mainCallArgs = some (argv.length - 1, argv.drop 1) ∧
    (argv.drop 1).getD 0 "" = "call" ∧
    (main PN PV mc er oe argv).ret = some (mc (argv.length - 1) (argv.drop 1)) := by
  rw [main_call_eq PN PV mc er oe argv h2 hc]
  have hdrop : (argv.drop 1).getD 0 "" = argv.getD 1 "" := by
    simp [List.getD_eq_getElem?_getD, List.getElem?_drop]
  exact ⟨rfl, hdrop.trans hc, rfl⟩

/-- Witness for C2: a stub handler returning the sentinel 7 at
`progname call a b c`; the handler sees count 4 and vector
`["call","a","b","c"]`, and `main` returns 7. -/
theorem call_rebase_and_propagate_witness :
    (main "lofreq" "2.1.5" (fun _ _ => 7) (some (-1)) "No such file or directory"
        ["progname", "call", "a", "b", "c"]).mainCallArgs =
      some (4, ["call", "a", "b", "c"]) ∧
    (main "lofreq" "2.1.5" (fun _ _ => 7) (some (-1)) "No such file or directory"
        ["progname", "call", "a", "b", "c"]).ret = some 7 := by
  have h := call_rebase_and_propagate "lofreq" "2.1.5" (fun _ _ => 7) (some (-1))
    "No such file or directory" ["progname", "call", "a", "b", "c"] (by decide) (by decide)
  exact ⟨h.1.trans (by decide), h.2.2.trans (by decide)⟩

/-- C3 at the failing input `lofreq filter somefile` (argc = 3): the code
allocates `argc-1 = 2` slots and fills both of them (the name slot plus the
one real argument), so the allocation does not exceed the number of filled
entries, no zeroed surplus slot remains, and the vector handed to `execvp`
contains no null/sentinel terminator, contrary to the POSIX convention the
claim appeals to. -/
theorem filter_argv_fills_every_slot :
    argv_execvp ["lofreq", "filter", "somefile"] = [some "lofreq", some "somefile"] ∧
    (argv_execvp ["lofreq", "filter", "somefile"]).length = 3 - 1 ∧
    ¬ none ∈ argv_execvp ["lofreq", "filter", "somefile"] := by
  decide

/-- C4: on the `filter` path, when the process-replacement call fails (and
hence returns, with a nonzero value per POSIX), the dispatcher prints a
description of the underlying OS error to the error stream and returns the
nonzero status -1. -/
theorem filter_execvp_failure_handling (e : Int) (he : e ≠ 0)
    (h2 : 2 ≤ argv.length) (hf : argv.getD 1 "" = "filter") :
    (main PN PV mc (some e) oe argv).ret = some (-1) ∧
    (main PN PV mc (some e) oe argv).stderr =
      ["Calling lofreq2_filter.py via execvp failed: " ++ oe ++ "\n"] ∧
    (-1 : Int) ≠ 0 := by
  rw [main_filter_fail_eq PN PV mc oe argv e he h2 hf]
  exact ⟨rfl, rfl, by decide⟩

/-- Witness for C4: `execvp` returns -1 with OS error text
"No such file or directory". -/
theorem filter_execvp_failure_handling_witness :
    (main "lofreq" "2.1.5" (fun _ _ => 0) (some (-1)) "No such file or directory"
        ["progname", "filter", "x"]).ret = some (-1) ∧
    (main "lofreq" "2.1.5" (fun _ _ => 0) (some (-1)) "No such file or directory"
        ["progname", "filter", "x"]).stderr =
      ["Calling lofreq2_filter.py via execvp failed: No such file or directory\n"] := by
  have h := filter_execvp_failure_handling "lofreq" "2.1.5" (fun _ _ => 0)
    "No such file or directory" ["progname", "filter", "x"] (-1)
    (by decide) (by decide) (by decide)
  exact ⟨h.1, h.2.1.trans (by decide)⟩

/-- C5: with fewer than 2 arguments, the dispatcher prints the usage text to
the error stream, naming the basename of argument 0 as the invocation name,
and returns status 1. -/
theorem missing_subcommand_usage (h : argv.length < 2) :
    (main PN PV mc er oe argv).ret = some 1 ∧
    (main PN PV mc er oe argv).stderr = usage PN (BASENAME (argv.getD 0 "")) ∧
    ("Usage: " ++ BASENAME (argv.getD 0 "") ++ " <command> [options], where command is one of:\n")
      ∈ (main PN PV mc er oe argv).stderr := by
  rw [main_usage_eq PN PV mc er oe argv h]
  refine ⟨rfl, rfl, ?_⟩
  simp [usage]

/-- Witness for C5 at the single-argument invocation
`/usr/local/bin/lofreq`: the usage text uses basename "lofreq". -/
theorem missing_subcommand_usage_witness :
    (main "lofreq" "2.1.5" (fun _ _ => 0) (some (-1)) "No such file or directory"
        ["/usr/local/bin/lofreq"]).ret = some 1 ∧
    (main "lofreq" "2.1.5" (fun _ _ => 0) (some (-1)) "No such file or directory"
        ["/usr/local/bin/lofreq"]).stderr = usage "lofreq" "lofreq" := by
  have h := missing_subcommand_usage "lofreq" "2.1.5" (fun _ _ => 0) (some (-1))
    "No such file or directory" ["/usr/local/bin/lofreq"] (by decide)
  exact ⟨h.1, h.2.1.trans (by decide)⟩

/-- C6: for the invocation `progname version`, the dispatcher writes to
standard output exactly the compile-time version string followed by a
newline, and returns status 0. -/
theorem version_prints_and_succeeds (progname : String) :
    (main PN PV mc er oe [progname, "version"]).stdout = [PV ++ "\n"] ∧
    (main PN PV mc er oe [progname, "version"]).ret = some 0 ∧
    (main PN PV mc er oe [progname, "version"]).stderr = [] := by
  rw [main_version_eq PN PV mc er oe [progname, "version"] (by simp) rfl]
  exact ⟨rfl, rfl, rfl⟩

/-- C7: for any invocation with at least 2 arguments whose argument 1 is
none of `call`, `filter`, `version`, a fatal-level message containing the
literal unrecognized token is logged and the status is 1. -/
theorem unrecognized_token_fatal (h2 : 2 ≤ argv.length)
    (hc : argv.getD 1 "" ≠ "call") (hf : argv.getD 1 "" ≠ "filter")
    (hv : argv.getD 1 "" ≠ "version") :
    (main PN PV mc er oe argv).ret = some 1 ∧
    (main PN PV mc er oe argv).fatal =
      ["Unrecognized command \x27" ++ argv.getD 1 "" ++ "\x27\n"] ∧
    ∃ pre post, "Unrecognized command \x27" ++ argv.getD 1 "" ++ "\x27\n" =
      pre ++ argv.getD 1 "" ++ post := by
  rw [main_unrecognized_eq PN PV mc er oe argv h2 hc hf hv]
  exact ⟨rfl, rfl, "Unrecognized command \x27", "\x27\n", rfl⟩

/-- Witness for C7 at `progname bogus`. -/
theorem unrecognized_token_fatal_witness :
    (main "lofreq" "2.1.5" (fun _ _ => 0) (some (-1)) "No such file or directory"
        ["progname", "bogus"]).ret = some 1 ∧
    (main "lofreq" "2.1.5" (fun _ _ => 0) (some (-1)) "No such file or directory"
        ["progname", "bogus"]).fatal = ["Unrecognized command \x27bogus\x27\n"] := by
  have h := unrecognized_token_fatal "lofreq" "2.1.5" (fun _ _ => 0) (some (-1))
    "No such file or directory" ["progname", "bogus"]
    (by decide) (by decide) (by decide) (by decide)
  exact ⟨h.1, h.2.1.trans (by decide)⟩

/-- C8 counterexample: the first element of the forwarded list is not a
fixed replacement program name substituted by the dispatcher: it varies with
the invocation (it is the original `argv[0]`) and differs from the
replacement executable name `lofreq2_filter.py`. -/
theorem filter_first_element_not_fixed :
    (argv_execvp ["progA", "filter", "x"]).getD 0 none ≠
      (argv_execvp ["progB", "filter", "x"]).getD 0 none ∧
    (argv_execvp ["progA", "filter", "x"]).getD 0 none ≠ some "lofreq2_filter.py" := by
  decide

/-- C8 (amended): for every invocation on the `filter` path, the forwarded
argument list preserves the relative order of all arguments after the
subcommand token, its first element is the original program path `argv[0]`
unchanged, and the fixed replacement program name `lofreq2_filter.py` is
passed separately to the process-replacement primitive as the executable. -/
theorem filter_order_preserved_name_separate (h2 : 2 ≤ argv.length)
    (hf : argv.getD 1 "" = "filter") :
    argv_execvp argv = some (argv.getD 0 "") :: (argv.drop 2).map some ∧
    ∃ vec, (main PN PV mc er oe argv).execvpCall = some ("lofreq2_filter.py", vec) := by
  refine ⟨argv_execvp_eq argv h2, ?_⟩
  cases er with
  | none => exact ⟨argv_execvp argv, by rw [main_filter_none_eq PN PV mc oe argv h2 hf]⟩
  | some e =>
    by_cases he : e = 0
    · subst he
      exact ⟨argv_execvp argv, by rw [main_filter_zero_eq PN PV mc oe argv h2 hf]⟩
    · exact ⟨argv_execvp argv, by rw [main_filter_fail_eq PN PV mc oe argv e he h2 hf]⟩

/-- Witness for C8 (amended) at `progname filter a b c`. -/
theorem filter_order_preserved_name_separate_witness :
    argv_execvp ["progname", "filter", "a", "b", "c"] =
      [some "progname", some "a", some "b", some "c"] ∧
    (main "lofreq" "2.1.5" (fun _ _ => 0) (some (-1)) "No such file or directory"
        ["progname", "filter", "a", "b", "c"]).execvpCall =
      some ("lofreq2_filter.py", [some "progname", some "a", some "b", some "c"]) := by
  have h := filter_order_preserved_name_separate "lofreq" "2.1.5" (fun _ _ => 0) (some (-1))
    "No such file or directory" ["progname", "filter", "a", "b", "c"] (by decide) (by decide)
  exact ⟨h.1.trans (by decide), by decide⟩

/-- C9: with at least 2 arguments, which dispatch branch runs depends only
on the exact string at argument index 1 (the collaborator behaviour held
fixed); in particular `version` prints the version string and returns 0
regardless of trailing arguments, and an unrecognized token yields status 1
regardless of trailing arguments. -/
theorem branch_depends_only_on_arg1 (argv2 : List String)
    (h2 : 2 ≤ argv.length) (h2b : 2 ≤ argv2.length)
    (hsame : argv.getD 1 "" = argv2.getD 1 "") :
    (main PN PV mc er oe argv).branch = (main PN PV mc er oe argv2).branch ∧
    (argv.getD 1 "" = "version" →
      (main PN PV mc er oe argv).ret = some 0 ∧
      (main PN PV mc er oe argv).stdout = [PV ++ "\n"]) ∧
    (argv.getD 1 "" ≠ "call" → argv.getD 1 "" ≠ "filter" →
      argv.getD 1 "" ≠ "version" → (main PN PV mc er oe argv).ret = some 1) := by
  by_cases hc : argv.getD 1 "" = "call"
  · rw [main_call_eq PN PV mc er oe argv h2 hc,
      main_call_eq PN PV mc er oe argv2 h2b (hsame.symm.trans hc)]
    exact ⟨rfl, fun hv => absurd (hc.symm.trans hv) (by decide),
      fun hc2 _ _ => absurd hc hc2⟩
  by_cases hfil : argv.getD 1 "" = "filter"
  · refine ⟨?_, fun hv => absurd (hfil.symm.trans hv) (by decide),
      fun _ hf2 _ => absurd hfil hf2⟩
    cases er with
    | none =>
      rw [main_filter_none_eq PN PV mc oe argv h2 hfil,
        main_filter_none_eq PN PV mc oe argv2 h2b (hsame.symm.trans hfil)]
    | some e =>
      by_cases he : e = 0
      · subst he
        rw [main_filter_zero_eq PN PV mc oe argv h2 hfil,
          main_filter_zero_eq PN PV mc oe argv2 h2b (hsame.symm.trans hfil)]
      · rw [main_filter_fail_eq PN PV mc oe argv e he h2 hfil,
          main_filter_fail_eq PN PV mc oe argv2 e he h2b (hsame.symm.trans hfil)]
  by_cases hver : argv.getD 1 "" = "version"
  · rw [main_version_eq PN PV mc er oe argv h2 hver,
      main_version_eq PN PV mc er oe argv2 h2b (hsame.symm.trans hver)]
    exact ⟨rfl, fun _ => ⟨rfl, rfl⟩, fun _ _ hv2 => absurd hver hv2⟩
  · rw [main_unrecognized_eq PN PV mc er oe argv h2 hc hfil hver,
      main_unrecognized_eq PN PV mc er oe argv2 h2b
        (fun h => hc (hsame.trans h)) (fun h => hfil (hsame.trans h))
        (fun h => hver (hsame.trans h))]
    exact ⟨rfl, fun hv => absurd hv hver, fun _ _ _ => rfl⟩

/-- Witness for C9: `progname version` and `progname version x y` run the
same branch, and the former returns 0. -/
theorem branch_depends_only_on_arg1_witness :
    (main "lofreq" "2.1.5" (fun _ _ => 0) (some (-1)) "No such file or directory"
        ["progname", "version"]).branch =
      (main "lofreq" "2.1.5" (fun _ _ => 0) (some (-1)) "No such file or directory"
        ["progname", "version", "x", "y"]).branch ∧
    (main "lofreq" "2.1.5" (fun _ _ => 0) (some (-1)) "No such file or directory"
        ["progname", "version"]).ret = some 0 := by
  have h := branch_depends_only_on_arg1 "lofreq" "2.1.5" (fun _ _ => 0) (some (-1))
    "No such file or directory" ["progname", "version"] ["progname", "version", "x", "y"]
    (by decide) (by decide) (by decide)
  exact ⟨h.1, (h.2.1 (by decide)).1⟩

/-- C10: under the execvp contract (it either never returns or returns a
nonzero failure indicator, i.e. it never returns 0), the dispatch chain
never reaches the trailing `return 0` of line 57, the `return 0` else arm
of the filter branch (line 47) is unreachable, and the filter path, whenever
it returns at all, returns -1. -/
theorem unreachable_returns_under_execvp_contract (hexec : er ≠ some 0) :
    mainChain PN PV mc er oe argv ≠ none ∧
    (main PN PV mc er oe argv).branch ≠ Branch.fallthrough ∧
    (main PN PV mc er oe argv).branch ≠ Branch.filterZero ∧
    (argv.getD 1 "" = "filter" → 2 ≤ argv.length →
      ∀ r, (main PN PV mc er oe argv).ret = some r → r = -1) := by
  refine ⟨mainChain_ne_none PN PV mc er oe argv, ?_⟩
  by_cases h1 : argv.length < 2
  · rw [main_usage_eq PN PV mc er oe argv h1]
    exact ⟨by simp, by simp, fun _ hlen _ _ => absurd hlen (by omega)⟩
  by_cases hc : argv.getD 1 "" = "call"
  · rw [main_call_eq PN PV mc er oe argv (by omega) hc]
    exact ⟨by simp, by simp, fun hf _ _ _ => absurd (hc.symm.trans hf) (by decide)⟩
  by_cases hfil : argv.getD 1 "" = "filter"
  · cases er with
    | none =>
      rw [main_filter_none_eq PN PV mc oe argv (by omega) hfil]
      exact ⟨by simp, by simp, fun _ _ r hr => by simp at hr⟩
    | some e =>
      have he : e ≠ 0 := fun h0 => hexec (by rw [h0])
      rw [main_filter_fail_eq PN PV mc oe argv e he (by omega) hfil]
      exact ⟨by simp, by simp, fun _ _ r hr => by simp at hr; omega⟩
  by_cases hver : argv.getD 1 "" = "version"
  · rw [main_version_eq PN PV mc er oe argv (by omega) hver]
    exact ⟨by simp, by simp, fun hf _ _ _ => absurd (hver.symm.trans hf) (by decide)⟩
  · rw [main_unrecognized_eq PN PV mc er oe argv (by omega) hc hfil hver]
    exact ⟨by simp, by simp, fun hf _ _ _ => absurd hf hfil⟩

/-- Witness for C10 with `execvp` returning -1 at `progname filter x`. -/
theorem unreachable_returns_under_execvp_contract_witness :
    (main "lofreq" "2.1.5" (fun _ _ => 0) (some (-1)) "No such file or directory"
        ["progname", "filter", "x"]).branch ≠ Branch.fallthrough ∧
    (main "lofreq" "2.1.5" (fun _ _ => 0) (some (-1)) "No such file or directory"
        ["progname", "filter", "x"]).branch ≠ Branch.filterZero := by
  have h := unreachable_returns_under_execvp_contract "lofreq" "2.1.5" (fun _ _ => 0)
    (some (-1)) "No such file or directory" ["progname", "filter", "x"] (by decide)
  exact ⟨h.2.1, h.2.2.1⟩

end Dispatch

end LofreqMain
